import Mathlib

/-!
Shallow embedding of the GPS Alarm web application's proximity-tracking and
notification-deduplication engine, together with proofs checking its
natural-language specification.

The embedding follows `new.js` (the main entry point: `CONFIG`, `AppState`,
`Utils.haversine`, `NotificationSystem.show`, `StorageService.saveTripHistory`,
`TrackingService.checkNotifications` / `handleArrival` / `stopTracking` /
`startPositionTracking`) and, where a claim also covers the legacy entry point
`script.js`, that file's `saveTripHistory`.

Numbers that the JavaScript code manipulates as IEEE doubles are idealized as
exact rationals (`ℚ`) in the discrete threshold logic and as reals (`ℝ`) in the
trigonometric distance computation.  A possibly-NaN number is `Option ℚ` with
`none` standing for NaN; a possibly-`null` value is likewise an `Option`.
Rational constants are written with `mkRat` so they evaluate by `decide`.
-/

namespace GPSAlarm

/-- The four alert tiers of `CONFIG.distances` (new.js lines 24-28).  In the
code the per-trip flags are keyed by the strings `"arrived"`, `"500m"`,
`"1km"`, `"2km"`; we use this enumeration instead of raw strings. -/
inductive Threshold
  | arrived
  | close
  | near
  | approaching
deriving DecidableEq

/-- `CONFIG.distances` in kilometers: arrived 0.3, close 0.75, near 1,
approaching 2 (new.js lines 24-28). -/
def distances : Threshold → ℚ
  | .arrived => mkRat 3 10
  | .close => mkRat 3 4
  | .near => mkRat 1 1
  | .approaching => mkRat 2 1

/-- JavaScript `<` on a possibly-NaN left operand: every comparison with NaN
is false. -/
def jsLt (d : Option ℚ) (b : ℚ) : Bool :=
  match d with
  | none => false
  | some q => decide (q < b)

/-- The in-app banner types used by `NotificationSystem` (new.js). -/
inductive NType
  | success
  | error
  | warning
  | info
deriving DecidableEq

/-- `CONFIG.notifications.durations` (new.js lines 17-22), milliseconds. -/
def durShort : ℕ := 2000

def durMedium : ℕ := 4000

def durLong : ℕ := 8000

def durPersistent : ℕ := 10000

/-- One record of the persisted trip log (`StorageService.saveTripHistory`,
new.js lines 584-616).  `destination` comes from
`sessionStorage.getItem("destination")`, which can be `null`; id and the
timestamp strings are not modelled.  `script.js`'s records carry the same
destination/distance information. -/
structure TripRecord where
  destination : Option String
  distance : ℚ
  duration : ℤ
deriving DecidableEq

/-- Observable side effects emitted by one synchronous run of the tracking
code, in program order: the in-app banner, the system notification, the haptic
pattern, the audio alert (`NotificationSystem.show`), the append to the
persisted trip log (`localStorage` write in `saveTripHistory`), the write of a
`appState.notified[...] = true` flag, `navigator.geolocation.clearWatch`, and
the wake-lock release. -/
inductive Effect
  | showInApp (message : String) (type : NType) (duration : ℕ)
  | showNative (message : String) (type : NType)
  | vibrate (type : NType)
  | playSound
  | appendTrip (trip : TripRecord)
  | markNotified (t : Threshold)
  | clearWatch (id : ℕ)
  | releaseWakeLock
deriving DecidableEq

/-- `String.prototype.includes`: does `pat` occur as a contiguous substring of
`s`? -/
def jsIncludes (s pat : String) : Bool :=
  (List.range (s.toList.length + 1)).any fun i => pat.toList.isPrefixOf (s.toList.drop i)

def arrivedWord : String := "arrived"

/-- `NotificationSystem.show(message, type, duration, isImportant)` (new.js
lines 197-208): always an in-app banner; when important additionally a system
notification and a haptic pattern, and an audio alert exactly when the message
contains the substring `"arrived"`. -/
def showEffects (message : String) (type : NType) (duration : ℕ) (isImportant : Bool) :
    List Effect :=
  Effect.showInApp message type duration ::
    (if isImportant then
      Effect.showNative message type :: Effect.vibrate type ::
        (if jsIncludes message arrivedWord then [Effect.playSound] else [])
    else [])

/- Messages passed to `show` by `checkNotifications` / `handleArrival`.  The
leading map-pin/party emoji and the apostrophe of the original text are elided
(they play no role in the `includes("arrived")` test); the interpolated trip
duration is kept. -/

def msg500 : String := "500 meters remaining to destination"

def msg1km : String := "1 kilometer remaining to destination"

def msg2km : String := "2 kilometers remaining to destination"

def arrivedMsgPre : String := "You have arrived at your destination! Trip took "

def arrivedMsgPost : String := " minutes."

def arrivedMsg (tripDuration : ℤ) : String :=
  arrivedMsgPre ++ toString tripDuration ++ arrivedMsgPost

/-- JavaScript string interpolation of a possibly-`null` value. -/
def optStr : Option String → String
  | none => "null"
  | some s => s

def savedMsgPre : String := "Trip saved: "

def savedMsgMid : String := " ("

def savedMsgEnd : String := " km)"

/-- `Math.round`: round half toward positive infinity. -/
def jsRound (q : ℚ) : ℤ := ⌊q + mkRat 1 2⌋

/-- `parseFloat(x.toFixed(2))`: round to two decimal places. -/
def roundTo2 (q : ℚ) : ℚ := (jsRound (q * 100) : ℚ) / 100

/-- The `Trip saved: ${destination} (${distance.toFixed(2)} km)` banner text
(the numeral is rendered as a rational rather than with a decimal point). -/
def savedMsg (destination : Option String) (distance : ℚ) : String :=
  savedMsgPre ++ optStr destination ++ savedMsgMid ++ toString (roundTo2 distance) ++ savedMsgEnd

/-- The mutable application state (`class AppState`, new.js lines 44-67),
restricted to the fields the tracking engine touches, plus
`NotificationSystem.wakeLock` and the `localStorage` trip log.  The Leaflet
map/marker/route fields are external rendering handles and are not modelled.
`notified` is the per-trip flag object, as a predicate over `Threshold`. -/
structure AppState where
  destLat : Option ℚ
  destLng : Option ℚ
  destName : Option String
  notified : Threshold → Bool
  watchId : Option ℕ
  isTracking : Bool
  trackingStartTime : Option ℕ
  wakeLock : Bool
  trips : List TripRecord

/-- `AppState.reset()` (new.js lines 58-66): clear the flags, stop tracking,
cancel the watch. -/
def AppState.reset (s : AppState) : AppState × List Effect :=
  let s1 : AppState :=
    { s with notified := fun _ => false, isTracking := false, trackingStartTime := none }
  match s1.watchId with
  | some id => ({ s1 with watchId := none }, [Effect.clearWatch id])
  | none => (s1, [])

/-- `NotificationSystem.releaseWakeLock()` (new.js lines 454-458). -/
def releaseWakeLockOp (s : AppState) : AppState × List Effect :=
  if s.wakeLock then ({ s with wakeLock := false }, [Effect.releaseWakeLock]) else (s, [])

/-- `TrackingService.stopTracking()` (new.js lines 812-819): clear
`isTracking`, cancel the geolocation watch if one is active, release the wake
lock. -/
def stopTracking (s : AppState) : AppState × List Effect :=
  let s1 : AppState := { s with isTracking := false }
  let step2 : AppState × List Effect :=
    match s1.watchId with
    | some id => ({ s1 with watchId := none }, [Effect.clearWatch id])
    | none => (s1, [])
  let step3 := releaseWakeLockOp step2.1
  (step3.1, step2.2 ++ step3.2)

/-- `TrackingService.startPositionTracking()` (new.js lines 683-698), state
part: set `isTracking`, clear any previous watch, subscribe a fresh watch whose
id `freshId` the geolocation service chooses.  The 10 s backup-poll interval
produces `sample` events like the watch itself and carries no extra state. -/
def startPositionTracking (freshId : ℕ) (s : AppState) : AppState × List Effect :=
  let s1 : AppState := { s with isTracking := true }
  let ev : List Effect :=
    match s1.watchId with
    | some id => [Effect.clearWatch id]
    | none => []
  ({ s1 with watchId := some freshId }, ev)

/-- `CONFIG.storage.maxTrips` (new.js line 31). -/
def maxTrips : ℕ := 100

/-- `StorageService.saveTripHistory` (new.js lines 584-616), list part:
`trips.unshift(newTrip)` then `trips.splice(CONFIG.storage.maxTrips)` when the
length exceeds the cap (splice at index 100 keeps the first 100 entries). -/
def saveTripHistory (newTrip : TripRecord) (trips : List TripRecord) : List TripRecord :=
  let trips1 := newTrip :: trips
  if trips1.length > maxTrips then trips1.take maxTrips else trips1

/-- The legacy `saveTripHistory` of `script.js` (lines 237-245):
`trips.push({...})` — the record is appended at the END of the log and no
maximum length is enforced. -/
def scriptSaveTripHistory (newTrip : TripRecord) (trips : List TripRecord) : List TripRecord :=
  trips ++ [newTrip]

/-- `StorageService.saveTripHistory` with its effects: the `localStorage`
write of the new log and the success banner (`show` with default importance
`false`). -/
def saveTripHistoryOp (destination : Option String) (distance : ℚ) (duration : ℤ)
    (s : AppState) : AppState × List Effect :=
  let newTrip : TripRecord :=
    { destination := destination, distance := roundTo2 distance, duration := duration }
  ({ s with trips := saveTripHistory newTrip s.trips },
    Effect.appendTrip newTrip :: showEffects (savedMsg destination distance) .success durMedium false)

/-- The `notificationSystem.show(...)` call each threshold's branch of
`checkNotifications` / `handleArrival` issues (new.js lines 766-798).
The `arrived` message interpolates the trip duration; the branch for
`"1km"` (near) passes `isImportant = true` just as the `"500m"` (close)
branch does, while the `"2km"` (approaching) branch relies on the default
`isImportant = false`. -/
def alertEffects : Threshold → ℤ → List Effect
  | .arrived, tripDuration => showEffects (arrivedMsg tripDuration) .success durPersistent true
  | .close, _ => showEffects msg500 .warning durMedium true
  | .near, _ => showEffects msg1km .info durMedium true
  | .approaching, _ => showEffects msg2km .info durShort false

/-- `TrackingService.handleArrival(distance)` (new.js lines 780-799), in
program order: compute the trip duration from `trackingStartTime` (0 when it
is unset), show the persistent important arrival alert, save the trip record,
set `appState.notified["arrived"] = true`, stop tracking.  `now` is the
current time in milliseconds (`new Date()`). -/
def tripDurationOf (now : ℕ) (s : AppState) : ℤ :=
  match s.trackingStartTime with
  | some t0 => jsRound (((now : ℚ) - (t0 : ℚ)) / 60000)
  | none => 0

def handleArrival (distance : ℚ) (now : ℕ) (s : AppState) : AppState × List Effect :=
  let tripDuration : ℤ := tripDurationOf now s
  let e1 := alertEffects .arrived tripDuration
  let saved := saveTripHistoryOp s.destName distance tripDuration s
  let s2 : AppState := { saved.1 with notified := Function.update saved.1.notified .arrived true }
  let stopped := stopTracking s2
  (stopped.1, e1 ++ saved.2 ++ [Effect.markNotified .arrived] ++ stopped.2)

/-- `TrackingService.checkNotifications` (new.js lines 763-778) given the
already-computed distance of the sample (line 765 computes it with
`Utils.haversine`; the real-valued distance pipeline is modelled separately
below).  `distance` is `Option ℚ` because a NaN distance makes every branch
guard false.  Each non-arrival branch shows its alert and THEN sets its
notified flag; the arrival branch delegates to `handleArrival`. -/
def checkNotifications (distance : Option ℚ) (now : ℕ) (s : AppState) :
    AppState × List Effect :=
  bif jsLt distance (distances .arrived) && !s.notified .arrived then
    handleArrival (distance.getD 0) now s
  else bif jsLt distance (distances .close) && !s.notified .close then
    ({ s with notified := Function.update s.notified .close true },
      alertEffects .close 0 ++ [Effect.markNotified .close])
  else bif jsLt distance (distances .near) && !s.notified .near then
    ({ s with notified := Function.update s.notified .near true },
      alertEffects .near 0 ++ [Effect.markNotified .near])
  else bif jsLt distance (distances .approaching) && !s.notified .approaching then
    ({ s with notified := Function.update s.notified .approaching true },
      alertEffects .approaching 0 ++ [Effect.markNotified .approaching])
  else (s, [])

/-- The decision structure of `checkNotifications`: which threshold's branch
runs (the spec's `ThresholdStateMachine.evaluate`), as a function of the
sample's distance and the notified flags. -/
def evaluateFired (distance : Option ℚ) (notified : Threshold → Bool) : Option Threshold :=
  bif jsLt distance (distances .arrived) && !notified .arrived then some .arrived
  else bif jsLt distance (distances .close) && !notified .close then some .close
  else bif jsLt distance (distances .near) && !notified .near then some .near
  else bif jsLt distance (distances .approaching) && !notified .approaching then some .approaching
  else none

/-- The thresholds in the order the code checks them: strictest (smallest
boundary) first. -/
def thresholdsStrictToLoose : List Threshold := [.arrived, .close, .near, .approaching]

/-- The spec's wording of eligibility: boundary ≥ distance and not yet
notified. -/
def specEligible (d : ℚ) (notified : Threshold → Bool) (t : Threshold) : Bool :=
  decide (distances t ≥ d) && !notified t

/-- `evaluate` as the spec words it: the first threshold, strictest to
loosest, whose boundary is ≥ the distance and that is not already notified. -/
def specEvaluate (d : ℚ) (notified : Threshold → Bool) : Option Threshold :=
  thresholdsStrictToLoose.find? (specEligible d notified)

/-- Eligibility as the code implements it: boundary STRICTLY greater than the
distance (`distance < boundary`) and not yet notified. -/
def codeEligible (d : ℚ) (notified : Threshold → Bool) (t : Threshold) : Bool :=
  decide (d < distances t) && !notified t

/-- The first (hence smallest-boundary) threshold eligible under the code's
strict comparison. -/
def strictestEligible (d : ℚ) (notified : Threshold → Bool) : Option Threshold :=
  thresholdsStrictToLoose.find? (codeEligible d notified)

/-- The events that can drive the tracking page's state after
`TrackPageController.init` has started tracking: a position sample (its
distance to the destination, possibly NaN, and the current time), an explicit
stop (`beforeunload` or direct call), and a `visibilitychange` callback, which
restarts `startPositionTracking` only when the page becomes visible while
`appState.isTracking` still holds (new.js lines 1703-1715). -/
inductive Ev
  | sample (distance : Option ℚ) (now : ℕ)
  | stop
  | visibility (hidden : Bool) (freshId : ℕ)

/-- One event's effect on the state. -/
def step (e : Ev) (s : AppState) : AppState × List Effect :=
  match e with
  | .sample d now => checkNotifications d now s
  | .stop => stopTracking s
  | .visibility hidden freshId =>
      if hidden then (s, [])
      else if s.isTracking then startPositionTracking freshId s
      else (s, [])

/-- Run a list of events, accumulating the effect trace. -/
def run : List Ev → AppState → AppState × List Effect
  | [], s => (s, [])
  | e :: evs, s =>
      let r1 := step e s
      let r2 := run evs r1.1
      (r2.1, r1.2 ++ r2.2)

/-- Run a list of `checkNotifications` calls (distance, now) — the
"sequence of evaluate calls" of a session. -/
def runChecks : List (Option ℚ × ℕ) → AppState → AppState × List Effect
  | [], s => (s, [])
  | c :: cs, s =>
      let r1 := checkNotifications c.1 c.2 s
      let r2 := runChecks cs r1.1
      (r2.1, r1.2 ++ r2.2)

/-- The state of the tracking page right after `TrackPageController.init` has
resolved the destination and `startPositionTracking` ran: fresh notified
flags, tracking active with a live watch, a start time recorded; the trip log
already in `localStorage` is arbitrary. -/
def initTrackingState (destName : Option String) (destLat destLng : ℚ) (t0 watchId0 : ℕ)
    (wakeLock0 : Bool) (trips0 : List TripRecord) : AppState :=
  { destLat := some destLat
    destLng := some destLng
    destName := destName
    notified := fun _ => false
    watchId := some watchId0
    isTracking := true
    trackingStartTime := some t0
    wakeLock := wakeLock0
    trips := trips0 }

/-- `Utils.deg2rad` (new.js lines 87-89): `deg * (Math.PI / 180)`. -/
noncomputable def deg2rad (deg : ℝ) : ℝ := deg * (Real.pi / 180)

/-- `Math.atan2(y, x)` on real (non-NaN, unsigned-zero) arguments. -/
noncomputable def atan2 (y x : ℝ) : ℝ :=
  if 0 < x then Real.arctan (y / x)
  else if x < 0 ∧ 0 ≤ y then Real.arctan (y / x) + Real.pi
  else if x < 0 then Real.arctan (y / x) - Real.pi
  else if 0 < y then Real.pi / 2
  else if y < 0 then -(Real.pi / 2)
  else 0

/-- `Utils.haversine(lat1, lon1, lat2, lon2)` (new.js lines 76-85; identical in
script.js lines 200-209): great-circle distance in kilometers with mean Earth
radius 6371 km. -/
noncomputable def haversine (lat1 lon1 lat2 lon2 : ℝ) : ℝ :=
  let R : ℝ := 6371
  let dLat := deg2rad (lat2 - lat1)
  let dLon := deg2rad (lon2 - lon1)
  let a := Real.sin (dLat / 2) ^ 2 +
    Real.cos (deg2rad lat1) * Real.cos (deg2rad lat2) * Real.sin (dLon / 2) ^ 2
  let c := 2 * atan2 (Real.sqrt a) (Real.sqrt (1 - a))
  R * c

/-- JavaScript arithmetic coercion of a possibly-`null` number: `null` becomes
`0`. -/
def jsNumCoerce : Option ℝ → ℝ
  | none => 0
  | some x => x

/-- Line 765 of new.js, `Utils.haversine(lat, lng, appState.destLat,
appState.destLng)`, where the destination coordinates may still be `null`:
inside the subtraction and the `deg2rad` multiplication JavaScript coerces
`null` to `0`. -/
noncomputable def haversineJS (lat lng : ℝ) (destLat destLng : Option ℝ) : ℝ :=
  haversine lat lng (jsNumCoerce destLat) (jsNumCoerce destLng)

/-- Alert-dispatch side effects (banner, system notification, haptic, audio)
as opposed to state writes. -/
def isDispatch : Effect → Bool
  | .showInApp _ _ _ => true
  | .showNative _ _ => true
  | .vibrate _ => true
  | .playSound => true
  | _ => false

/-- Is this effect the `localStorage` append of a trip record? -/
def isAppendTrip : Effect → Bool
  | .appendTrip _ => true
  | _ => false

/-- Does the trace start with an alert dispatch? -/
def headIsDispatch (l : List Effect) : Bool :=
  match l.head? with
  | some e => isDispatch e
  | none => false

/-- Does the trace start with the notified-flag write for `t`? -/
def headIsMark (l : List Effect) (t : Threshold) : Bool :=
  l.head? == some (Effect.markNotified t)

/-- An empty notified-flag object, `appState.notified = {}`. -/
def emptyNotified : Threshold → Bool := fun _ => false

def destX : String := "X"

/-- A concrete freshly-started tracking state used to instantiate theorems. -/
def cexState : AppState := initTrackingState (some destX) (mkRat 1 1) (mkRat 1 1) 0 7 true []

/-- `cexState` with the `close` flag already set. -/
def cexStateClose : AppState :=
  { cexState with notified := Function.update cexState.notified .close true }

/-- Concrete trip records used to instantiate theorems. -/
def tripA : TripRecord := { destination := none, distance := mkRat 1 1, duration := 0 }

def tripB : TripRecord := { destination := none, distance := mkRat 2 1, duration := 0 }

/-- The C4 invariant: once `arrived` is notified, the session is inactive —
tracking flag cleared and the geolocation watch cancelled. -/
def TrackingInv (s : AppState) : Prop :=
  s.notified .arrived = true → s.isTracking = false ∧ s.watchId = none

/-- C9: `stopTracking` touches only the tracking-activity fields: the notified
flags, destination coordinates and name, start time, and trip log are
unchanged, and a second consecutive call neither changes the state further nor
emits any effect (idempotent no-op). -/
theorem stopTracking_frame_idempotent (s : AppState) :
    ((stopTracking s).1.notified = s.notified ∧
      (stopTracking s).1.destLat = s.destLat ∧
      (stopTracking s).1.destLng = s.destLng ∧
      (stopTracking s).1.destName = s.destName ∧
      (stopTracking s).1.trackingStartTime = s.trackingStartTime ∧
      (stopTracking s).1.trips = s.trips) ∧
    stopTracking (stopTracking s).1 = ((stopTracking s).1, []) := by
  obtain ⟨dla, dln, dn, nf, wid, tr, t0, wl, tps⟩ := s
  cases wid <;> cases wl <;>
    simp [stopTracking, releaseWakeLockOp]

/-- C7 counterexample: the legacy `saveTripHistory` of script.js appends the
new record at the END of the log, so the just-added record is not the head. -/
theorem scriptSaveTripHistory_not_front :
    scriptSaveTripHistory tripB [tripA] = [tripA, tripB] ∧
    (scriptSaveTripHistory tripB [tripA]).head? ≠ some tripB := by decide

/-- C7 (amended): `StorageService.saveTripHistory` (new.js) inserts the new
record at the front, and on a log already at the 100-entry cap the result
still has 100 entries, the oldest (last) entry being evicted. -/
theorem saveTripHistory_front_capped (r : TripRecord) (l : List TripRecord) :
    (saveTripHistory r l).head? = some r ∧
    (l.length = maxTrips →
      (saveTripHistory r l).length = maxTrips ∧ saveTripHistory r l = r :: l.dropLast) := by
  constructor
  · simp only [saveTripHistory, maxTrips]
    split
    · cases l <;> simp
    · simp
  · intro hlen
    simp only [saveTripHistory]
    have hgt : (r :: l).length > maxTrips := by simp [hlen]
    rw [if_pos hgt]
    constructor
    · simp [hlen, maxTrips]
    · have : maxTrips = (r :: l).length - 1 := by simp [hlen]
      simp [List.take_cons, hlen, maxTrips, List.dropLast_eq_take]

/-- Witness for C7's theorem at a log of exactly 100 records. -/
theorem saveTripHistory_front_capped_witness :
    (saveTripHistory tripB (List.replicate 100 tripA)).head? = some tripB ∧
    (saveTripHistory tripB (List.replicate 100 tripA)).length = maxTrips ∧
    saveTripHistory tripB (List.replicate 100 tripA) =
      tripB :: (List.replicate 100 tripA).dropLast := by
  have h := saveTripHistory_front_capped tripB (List.replicate 100 tripA)
  have hlen : (List.replicate 100 tripA).length = maxTrips := by simp [maxTrips]
  exact ⟨h.1, (h.2 hlen).1, (h.2 hlen).2⟩

/-- If `pat` occurs in `a`, it occurs in `a ++ b`. -/
theorem jsIncludes_append_left (a b pat : String) (h : jsIncludes a pat = true) :
    jsIncludes (a ++ b) pat = true := by
  simp only [jsIncludes, List.any_eq_true, List.mem_range] at h ⊢
  obtain ⟨i, hi, hpre⟩ := h
  have htl : (a ++ b).toList = a.toList ++ b.toList := by simp
  have hi' : i ≤ a.toList.length := Nat.lt_succ_iff.mp hi
  refine ⟨i, ?_, ?_⟩
  · rw [htl, List.length_append]
    omega
  · rw [List.isPrefixOf_iff_prefix] at hpre ⊢
    rw [htl, List.drop_append_of_le_length hi']
    exact hpre.trans (List.prefix_append _ _)

/-- The arrival banner text contains the word "arrived" whatever trip duration
is interpolated into it. -/
theorem jsIncludes_arrivedMsg (dur : ℤ) : jsIncludes (arrivedMsg dur) arrivedWord = true := by
  have h1 : jsIncludes arrivedMsgPre arrivedWord = true := by decide
  have h2 := jsIncludes_append_left arrivedMsgPre (toString dur) arrivedWord h1
  have h3 := jsIncludes_append_left (arrivedMsgPre ++ toString dur) arrivedMsgPost arrivedWord h2
  simpa [arrivedMsg, String.append_assoc] using h3

/-- C6 counterexample: the `near` ("1km") tier is dispatched with
`isImportant = true`, so it gets the system notification and the haptic
pattern, contradicting the claim that only `close` and `arrived` are
important. -/
theorem near_dispatched_important :
    Effect.showNative msg1km NType.info ∈ alertEffects Threshold.near 0 ∧
    Effect.vibrate NType.info ∈ alertEffects Threshold.near 0 := by decide

/-- C6 (amended): `arrived`, `close` AND `near` are dispatched as important
(system notification plus haptic); only `approaching` is informational
(in-app banner only); every tier shows an in-app banner; and the audible
alert plays exactly in the `arrived` case. -/
theorem alert_channels (t : Threshold) (dur : ℤ) :
    ((∃ m ty, Effect.showNative m ty ∈ alertEffects t dur) ↔ t ≠ .approaching) ∧
    ((∃ ty, Effect.vibrate ty ∈ alertEffects t dur) ↔ t ≠ .approaching) ∧
    (Effect.playSound ∈ alertEffects t dur ↔ t = .arrived) ∧
    (∃ m ty du, Effect.showInApp m ty du ∈ alertEffects t dur) := by
  cases t
  case arrived =>
    have he : alertEffects .arrived dur =
        [Effect.showInApp (arrivedMsg dur) .success durPersistent,
          Effect.showNative (arrivedMsg dur) .success,
          Effect.vibrate .success, Effect.playSound] := by
      simp [alertEffects, showEffects, jsIncludes_arrivedMsg dur]
    simp [he]
  case close =>
    have he : alertEffects .close dur =
        [Effect.showInApp msg500 .warning durMedium,
          Effect.showNative msg500 .warning, Effect.vibrate .warning] := by
      simp [alertEffects, showEffects, (by decide : jsIncludes msg500 arrivedWord = false)]
    simp [he]
  case near =>
    have he : alertEffects .near dur =
        [Effect.showInApp msg1km .info durMedium,
          Effect.showNative msg1km .info, Effect.vibrate .info] := by
      simp [alertEffects, showEffects, (by decide : jsIncludes msg1km arrivedWord = false)]
    simp [he]
  case approaching =>
    have he : alertEffects .approaching dur = [Effect.showInApp msg2km .info durShort] := by
      simp [alertEffects, showEffects]
    simp [he]

/-- C1 counterexample: at distance exactly 0.3 km (the `arrived` boundary)
with no threshold yet notified, the spec's rule "first threshold whose
boundary is ≥ distance" picks `arrived`, but the code's strict `distance <
boundary` ladder skips `arrived` and fires `close`. -/
theorem evaluate_boundary_rule_cex :
    specEvaluate (mkRat 3 10) emptyNotified = some Threshold.arrived ∧
    evaluateFired (some (mkRat 3 10)) emptyNotified = some Threshold.close ∧
    evaluateFired (some (mkRat 3 10)) emptyNotified ≠ specEvaluate (mkRat 3 10) emptyNotified := by
  decide

theorem evaluateFired_eq_find (d : ℚ) (N : Threshold → Bool) :
    evaluateFired (some d) N = strictestEligible d N := by
  simp only [evaluateFired, strictestEligible, thresholdsStrictToLoose, codeEligible, jsLt,
    List.find?]
  cases hb1 : decide (d < distances Threshold.arrived) && !N Threshold.arrived <;>
    cases hb2 : decide (d < distances Threshold.close) && !N Threshold.close <;>
      cases hb3 : decide (d < distances Threshold.near) && !N Threshold.near <;>
        cases hb4 : decide (d < distances Threshold.approaching) && !N Threshold.approaching <;>
          simp

/-- From a false branch guard: the threshold is not strictly-eligible. -/
theorem guard_false {d b : ℚ} {v : Bool} (h : (decide (d < b) && !v) = false) :
    d < b → v = false → False := by
  intro hd hv
  rw [hv] at h
  simp [hd] at h

/-- From a true branch guard: the threshold is strictly-eligible. -/
theorem guard_true {d b : ℚ} {v : Bool} (h : (decide (d < b) && !v) = true) :
    d < b ∧ v = false := by
  simp at h
  exact ⟨h.1, by simp [h.2]⟩

theorem evaluateFired_some_minimal (d : ℚ) (N : Threshold → Bool) (t : Threshold)
    (h : evaluateFired (some d) N = some t) :
    d < distances t ∧ N t = false ∧
      ∀ u, d < distances u → N u = false → distances t ≤ distances u := by
  have hAC : distances .arrived ≤ distances .close := by norm_num [distances]
  have hCN : distances .close ≤ distances .near := by norm_num [distances]
  have hNA : distances .near ≤ distances .approaching := by norm_num [distances]
  simp only [evaluateFired, jsLt] at h
  cases hb1 : decide (d < distances Threshold.arrived) && !N Threshold.arrived <;> rw [hb1] at h
  case true =>
    simp only [cond_true, Option.some.injEq] at h
    subst h
    obtain ⟨hd, hv⟩ := guard_true hb1
    exact ⟨hd, hv, fun u _ _ => by
      cases u
      · exact le_refl _
      · exact hAC
      · exact hAC.trans hCN
      · exact (hAC.trans hCN).trans hNA⟩
  cases hb2 : decide (d < distances Threshold.close) && !N Threshold.close <;> rw [hb2] at h
  case true =>
    simp only [cond_false, cond_true, Option.some.injEq] at h
    subst h
    obtain ⟨hd, hv⟩ := guard_true hb2
    refine ⟨hd, hv, fun u hu hNu => ?_⟩
    cases u
    · exact (guard_false hb1 hu hNu).elim
    · exact le_refl _
    · exact hCN
    · exact hCN.trans hNA
  cases hb3 : decide (d < distances Threshold.near) && !N Threshold.near <;> rw [hb3] at h
  case true =>
    simp only [cond_false, cond_true, Option.some.injEq] at h
    subst h
    obtain ⟨hd, hv⟩ := guard_true hb3
    refine ⟨hd, hv, fun u hu hNu => ?_⟩
    cases u
    · exact (guard_false hb1 hu hNu).elim
    · exact (guard_false hb2 hu hNu).elim
    · exact le_refl _
    · exact hNA
  cases hb4 : decide (d < distances Threshold.approaching) && !N Threshold.approaching <;>
    rw [hb4] at h
  case true =>
    simp only [cond_false, cond_true, Option.some.injEq] at h
    subst h
    obtain ⟨hd, hv⟩ := guard_true hb4
    refine ⟨hd, hv, fun u hu hNu => ?_⟩
    cases u
    · exact (guard_false hb1 hu hNu).elim
    · exact (guard_false hb2 hu hNu).elim
    · exact (guard_false hb3 hu hNu).elim
    · exact le_refl _
  case false =>
    simp at h

theorem evaluateFired_none_no_eligible (d : ℚ) (N : Threshold → Bool)
    (h : evaluateFired (some d) N = none) :
    ∀ u, d < distances u → N u = false → False := by
  simp only [evaluateFired, jsLt] at h
  cases hb1 : decide (d < distances Threshold.arrived) && !N Threshold.arrived <;> rw [hb1] at h
  case true => simp at h
  cases hb2 : decide (d < distances Threshold.close) && !N Threshold.close <;> rw [hb2] at h
  case true => simp at h
  cases hb3 : decide (d < distances Threshold.near) && !N Threshold.near <;> rw [hb3] at h
  case true => simp at h
  cases hb4 : decide (d < distances Threshold.approaching) && !N Threshold.approaching <;>
    rw [hb4] at h
  case true => simp at h
  intro u hu hNu
  cases u
  · exact guard_false hb1 hu hNu
  · exact guard_false hb2 hu hNu
  · exact guard_false hb3 hu hNu
  · exact guard_false hb4 hu hNu

/-- C1 (amended): the code's evaluate returns the first — hence strictest,
smallest-boundary — threshold whose boundary is STRICTLY greater than the
distance (the code compares `distance < boundary`, not `boundary ≥ distance`)
and that is not yet notified, or `none` when no threshold qualifies; at most
one threshold is returned per call, and a returned threshold has the least
boundary among all qualifying ones, so when a first sample is already inside
the `arrived` radius only `arrived` fires. -/
theorem evaluate_returns_strictest_unnotified (d : ℚ) (N : Threshold → Bool) :
    evaluateFired (some d) N = strictestEligible d N ∧
    (∀ t, evaluateFired (some d) N = some t →
      d < distances t ∧ N t = false ∧
        ∀ u, d < distances u → N u = false → distances t ≤ distances u) ∧
    (evaluateFired (some d) N = none → ∀ u, d < distances u → N u = false → False) :=
  ⟨evaluateFired_eq_find d N, fun t ht => evaluateFired_some_minimal d N t ht,
    fun h => evaluateFired_none_no_eligible d N h⟩

/-- Witness for C1's theorem: at distance 0.1 km with nothing notified the
call fires `arrived`, which is strictly-eligible and boundary-minimal. -/
theorem evaluate_returns_strictest_unnotified_witness :
    evaluateFired (some (mkRat 1 10)) emptyNotified =
      strictestEligible (mkRat 1 10) emptyNotified ∧
    mkRat 1 10 < distances Threshold.arrived ∧
    emptyNotified Threshold.arrived = false ∧
    distances Threshold.arrived ≤ distances Threshold.close := by
  have h := evaluate_returns_strictest_unnotified (mkRat 1 10) emptyNotified
  have hm := h.2.1 Threshold.arrived (by decide)
  exact ⟨h.1, hm.1, hm.2.1, hm.2.2 Threshold.close (by decide) (by decide)⟩

theorem mark_not_mem_showEffects (t : Threshold) (m : String) (ty : NType) (du : ℕ)
    (imp : Bool) : Effect.markNotified t ∉ showEffects m ty du imp := by
  cases imp <;> simp [showEffects]

theorem mark_not_mem_stopTracking (t : Threshold) (s : AppState) :
    Effect.markNotified t ∉ (stopTracking s).2 := by
  obtain ⟨dla, dln, dn, nf, wid, tr, t0, wl, tps⟩ := s
  cases wid <;> cases wl <;> simp [stopTracking, releaseWakeLockOp]

theorem mark_not_mem_saveTripHistoryOp (t : Threshold) (dest : Option String) (dist : ℚ)
    (dur : ℤ) (s : AppState) : Effect.markNotified t ∉ (saveTripHistoryOp dest dist dur s).2 := by
  simp only [saveTripHistoryOp, List.mem_cons]
  intro hmem
  rcases hmem with h | hmem
  · cases h
  · exact mark_not_mem_showEffects t _ _ _ _ hmem

theorem stopTracking_state (s : AppState) :
    (stopTracking s).1 = { s with isTracking := false, watchId := none, wakeLock := false } := by
  obtain ⟨dla, dln, dn, nf, wid, tr, t0, wl, tps⟩ := s
  cases wid <;> cases wl <;> simp [stopTracking, releaseWakeLockOp]

theorem handleArrival_post (dq : ℚ) (now : ℕ) (s : AppState) :
    (handleArrival dq now s).1.notified = Function.update s.notified .arrived true ∧
    (handleArrival dq now s).1.isTracking = false ∧
    (handleArrival dq now s).1.watchId = none := by
  refine ⟨?_, ?_, ?_⟩ <;> simp [handleArrival, stopTracking_state, saveTripHistoryOp]

theorem handleArrival_trace (dq : ℚ) (now : ℕ) (s : AppState) :
    (handleArrival dq now s).2 =
      showEffects (arrivedMsg (tripDurationOf now s)) .success durPersistent true ++
        (saveTripHistoryOp s.destName dq (tripDurationOf now s) s).2 ++
          [Effect.markNotified .arrived] ++
            (stopTracking { (saveTripHistoryOp s.destName dq (tripDurationOf now s) s).1 with
              notified := Function.update
                (saveTripHistoryOp s.destName dq (tripDurationOf now s) s).1.notified
                .arrived true }).2 := rfl

theorem mark_not_mem_alertEffects (t u : Threshold) (dur : ℤ) :
    Effect.markNotified t ∉ alertEffects u dur := by
  cases u <;> exact mark_not_mem_showEffects _ _ _ _ _

theorem mark_in_handleArrival (dq : ℚ) (now : ℕ) (s : AppState) (t : Threshold)
    (h : Effect.markNotified t ∈ (handleArrival dq now s).2) : t = .arrived := by
  rw [handleArrival_trace] at h
  simp only [List.mem_append, List.mem_singleton] at h
  rcases h with ((h | h) | h) | h
  · exact absurd h (mark_not_mem_showEffects _ _ _ _ _)
  · exact absurd h (mark_not_mem_saveTripHistoryOp _ _ _ _ _)
  · cases h; rfl
  · exact absurd h (mark_not_mem_stopTracking _ _)

/-- C2 (amended): whenever a `checkNotifications` call emits the
notified-flag write for a threshold, the post-state has that flag set (the
write happens before the call returns), but the trace BEGINS with an alert
dispatch — the in-app `show` call — and the flag write is not the first trace
entry: the dispatch precedes the write, not the other way round. -/
theorem mark_follows_dispatch (d : Option ℚ) (now : ℕ) (s : AppState) (t : Threshold)
    (h : Effect.markNotified t ∈ (checkNotifications d now s).2) :
    (checkNotifications d now s).1.notified t = true ∧
    headIsDispatch (checkNotifications d now s).2 = true ∧
    headIsMark (checkNotifications d now s).2 t = false := by
  simp only [checkNotifications] at h ⊢
  cases hb1 : jsLt d (distances .arrived) && !s.notified .arrived
  case true =>
    rw [hb1] at h
    simp only [cond_true] at h ⊢
    obtain rfl := mark_in_handleArrival _ _ _ _ h
    refine ⟨?_, ?_, ?_⟩
    · rw [(handleArrival_post _ _ _).1]
      simp
    · rw [handleArrival_trace]
      simp [headIsDispatch, showEffects, isDispatch]
    · rw [handleArrival_trace]
      simp [headIsMark, showEffects]
  case false =>
  rw [hb1] at h
  simp only [cond_false] at h ⊢
  cases hb2 : jsLt d (distances .close) && !s.notified .close
  case true =>
    rw [hb2] at h
    simp only [cond_true] at h ⊢
    have ht : t = .close := by
      simp only [List.mem_append, List.mem_singleton] at h
      rcases h with h | h
      · exact absurd h (mark_not_mem_alertEffects _ _ _)
      · cases h; rfl
    subst ht
    refine ⟨by simp, ?_, ?_⟩ <;>
      simp [headIsDispatch, headIsMark, alertEffects, showEffects, isDispatch]
  case false =>
  rw [hb2] at h
  simp only [cond_false] at h ⊢
  cases hb3 : jsLt d (distances .near) && !s.notified .near
  case true =>
    rw [hb3] at h
    simp only [cond_true] at h ⊢
    have ht : t = .near := by
      simp only [List.mem_append, List.mem_singleton] at h
      rcases h with h | h
      · exact absurd h (mark_not_mem_alertEffects _ _ _)
      · cases h; rfl
    subst ht
    refine ⟨by simp, ?_, ?_⟩ <;>
      simp [headIsDispatch, headIsMark, alertEffects, showEffects, isDispatch]
  case false =>
  rw [hb3] at h
  simp only [cond_false] at h ⊢
  cases hb4 : jsLt d (distances .approaching) && !s.notified .approaching
  case true =>
    rw [hb4] at h
    simp only [cond_true] at h ⊢
    have ht : t = .approaching := by
      simp only [List.mem_append, List.mem_singleton] at h
      rcases h with h | h
      · exact absurd h (mark_not_mem_alertEffects _ _ _)
      · cases h; rfl
    subst ht
    refine ⟨by simp, ?_, ?_⟩ <;>
      simp [headIsDispatch, headIsMark, alertEffects, showEffects, isDispatch]
  case false =>
    rw [hb4] at h
    simp only [cond_false] at h
    cases h

/-- C2 counterexample: a concrete evaluate call (distance 0.5 km, nothing yet
notified) whose trace has the alert dispatch at index 0 and the notified-set
write only at index 3 — the dispatch precedes the write, so the claimed
write-before-dispatch order is false. -/
theorem dispatch_precedes_mark_cex :
    (checkNotifications (some (mkRat 1 2)) 0 cexState).2.findIdx isDispatch = 0 ∧
    (checkNotifications (some (mkRat 1 2)) 0 cexState).2.findIdx
      (fun e => e == Effect.markNotified Threshold.close) = 3 ∧
    Effect.markNotified Threshold.close ∈ (checkNotifications (some (mkRat 1 2)) 0 cexState).2 := by
  decide

/-- Witness for C2's theorem at the same concrete call. -/
theorem mark_follows_dispatch_witness :
    (checkNotifications (some (mkRat 1 2)) 0 cexState).1.notified Threshold.close = true ∧
    headIsDispatch (checkNotifications (some (mkRat 1 2)) 0 cexState).2 = true ∧
    headIsMark (checkNotifications (some (mkRat 1 2)) 0 cexState).2 Threshold.close = false :=
  mark_follows_dispatch (some (mkRat 1 2)) 0 cexState Threshold.close (by decide)

theorem checkNotifications_notified_mono (d : Option ℚ) (now : ℕ) (s : AppState) (t : Threshold)
    (h : s.notified t = true) : (checkNotifications d now s).1.notified t = true := by
  simp only [checkNotifications]
  cases hb1 : jsLt d (distances .arrived) && !s.notified .arrived
  case true =>
    simp only [cond_true]
    rw [(handleArrival_post _ _ _).1, Function.update_apply]
    split <;> simp [h]
  case false =>
  simp only [cond_false]
  cases hb2 : jsLt d (distances .close) && !s.notified .close
  case true =>
    simp only [cond_true, Function.update_apply]
    split <;> simp [h]
  case false =>
  simp only [cond_false]
  cases hb3 : jsLt d (distances .near) && !s.notified .near
  case true =>
    simp only [cond_true, Function.update_apply]
    split <;> simp [h]
  case false =>
  simp only [cond_false]
  cases hb4 : jsLt d (distances .approaching) && !s.notified .approaching
  case true =>
    simp only [cond_true, Function.update_apply]
    split <;> simp [h]
  case false =>
    simpa using h

theorem count_mark_showEffects (t : Threshold) (m : String) (ty : NType) (du : ℕ) (imp : Bool) :
    (showEffects m ty du imp).count (Effect.markNotified t) = 0 :=
  List.count_eq_zero.mpr (mark_not_mem_showEffects t m ty du imp)

theorem count_mark_alertEffects (t u : Threshold) (dur : ℤ) :
    (alertEffects u dur).count (Effect.markNotified t) = 0 :=
  List.count_eq_zero.mpr (mark_not_mem_alertEffects t u dur)

/-- One `checkNotifications` call either leaves a given flag's value and mark
count untouched, or — when its branch fires that very threshold — emits
exactly one mark for it, starting from an unset flag and ending with it set. -/
theorem checkNotifications_mark_cases (d : Option ℚ) (now : ℕ) (s : AppState) (t : Threshold) :
    ((checkNotifications d now s).2.count (Effect.markNotified t) = 0 ∧
      (checkNotifications d now s).1.notified t = s.notified t) ∨
    ((checkNotifications d now s).2.count (Effect.markNotified t) = 1 ∧
      s.notified t = false ∧ (checkNotifications d now s).1.notified t = true) := by
  simp only [checkNotifications]
  cases hb1 : jsLt d (distances .arrived) && !s.notified .arrived
  case true =>
    simp only [cond_true]
    have hflag : s.notified .arrived = false := by
      rcases Bool.and_eq_true .. |>.mp hb1 with ⟨_, h2⟩
      simpa using h2
    rw [handleArrival_trace, (handleArrival_post _ _ _).1]
    by_cases ht : t = Threshold.arrived
    · subst ht
      refine Or.inr ⟨?_, hflag, by simp⟩
      simp [List.count_append, count_mark_showEffects,
        List.count_eq_zero.mpr (mark_not_mem_saveTripHistoryOp _ _ _ _ _),
        List.count_eq_zero.mpr (mark_not_mem_stopTracking _ _)]
    · refine Or.inl ⟨?_, by simp [Function.update_apply, ht]⟩
      simp [List.count_append, count_mark_showEffects, ht,
        List.count_eq_zero.mpr (mark_not_mem_saveTripHistoryOp _ _ _ _ _),
        List.count_eq_zero.mpr (mark_not_mem_stopTracking _ _), List.count_singleton]
  case false =>
  simp only [cond_false]
  cases hb2 : jsLt d (distances .close) && !s.notified .close
  case true =>
    simp only [cond_true]
    have hflag : s.notified .close = false := by
      rcases Bool.and_eq_true .. |>.mp hb2 with ⟨_, h2⟩
      simpa using h2
    by_cases ht : t = Threshold.close
    · subst ht
      exact Or.inr ⟨by simp [List.count_append, count_mark_alertEffects], hflag, by simp⟩
    · exact Or.inl ⟨by simp [List.count_append, count_mark_alertEffects, ht],
        by simp [Function.update_apply, ht]⟩
  case false =>
  simp only [cond_false]
  cases hb3 : jsLt d (distances .near) && !s.notified .near
  case true =>
    simp only [cond_true]
    have hflag : s.notified .near = false := by
      rcases Bool.and_eq_true .. |>.mp hb3 with ⟨_, h2⟩
      simpa using h2
    by_cases ht : t = Threshold.near
    · subst ht
      exact Or.inr ⟨by simp [List.count_append, count_mark_alertEffects], hflag, by simp⟩
    · exact Or.inl ⟨by simp [List.count_append, count_mark_alertEffects, ht],
        by simp [Function.update_apply, ht]⟩
  case false =>
  simp only [cond_false]
  cases hb4 : jsLt d (distances .approaching) && !s.notified .approaching
  case true =>
    simp only [cond_true]
    have hflag : s.notified .approaching = false := by
      rcases Bool.and_eq_true .. |>.mp hb4 with ⟨_, h2⟩
      simpa using h2
    by_cases ht : t = Threshold.approaching
    · subst ht
      exact Or.inr ⟨by simp [List.count_append, count_mark_alertEffects], hflag, by simp⟩
    · exact Or.inl ⟨by simp [List.count_append, count_mark_alertEffects, ht],
        by simp [Function.update_apply, ht]⟩
  case false =>
    simp only [cond_false]
    exact Or.inl ⟨by simp, by simp⟩

theorem runChecks_notified_mono (cs : List (Option ℚ × ℕ)) (s : AppState) (t : Threshold)
    (h : s.notified t = true) : (runChecks cs s).1.notified t = true := by
  induction cs generalizing s with
  | nil => simpa using h
  | cons c cs ih =>
      simp only [runChecks]
      exact ih _ (checkNotifications_notified_mono c.1 c.2 s t h)

theorem runChecks_count_zero (cs : List (Option ℚ × ℕ)) (s : AppState) (t : Threshold)
    (h : s.notified t = true) :
    (runChecks cs s).2.count (Effect.markNotified t) = 0 := by
  induction cs generalizing s with
  | nil => simp [runChecks]
  | cons c cs ih =>
      simp only [runChecks, List.count_append]
      rcases checkNotifications_mark_cases c.1 c.2 s t with ⟨hc, hn⟩ | ⟨_, hflag, _⟩
      · rw [hc, ih _ (hn.trans h)]
      · rw [h] at hflag
        cases hflag

theorem runChecks_count_le_one (cs : List (Option ℚ × ℕ)) (s : AppState) (t : Threshold) :
    (runChecks cs s).2.count (Effect.markNotified t) ≤ 1 := by
  induction cs generalizing s with
  | nil => simp [runChecks]
  | cons c cs ih =>
      simp only [runChecks, List.count_append]
      rcases checkNotifications_mark_cases c.1 c.2 s t with ⟨hc, _⟩ | ⟨hc, _, hpost⟩
      · rw [hc]
        simpa using ih _
      · rw [hc, runChecks_count_zero cs _ t hpost]

/-- C3: over any sequence of evaluate calls the notified set only grows (a
set flag stays set), each threshold's notified-flag write is emitted at most
once — so an already-notified threshold never re-fires at the same or any
other distance — and only `AppState.reset` clears the flags. -/
theorem notified_monotone_at_most_once (cs : List (Option ℚ × ℕ)) (s : AppState) (t : Threshold) :
    (s.notified t = true → (runChecks cs s).1.notified t = true) ∧
    (runChecks cs s).2.count (Effect.markNotified t) ≤ 1 ∧
    (AppState.reset s).1.notified t = false := by
  refine ⟨fun h => runChecks_notified_mono cs s t h, runChecks_count_le_one cs s t, ?_⟩
  simp only [AppState.reset]
  cases s.watchId <;> rfl

/-- Witness for C3's theorem: a session whose `close` flag is already set,
fed one more sample at 0.5 km. -/
theorem notified_monotone_at_most_once_witness :
    (runChecks [(some (mkRat 1 2), 0)] cexStateClose).1.notified Threshold.close = true ∧
    (runChecks [(some (mkRat 1 2), 0)] cexStateClose).2.count
      (Effect.markNotified Threshold.close) ≤ 1 ∧
    (AppState.reset cexStateClose).1.notified Threshold.close = false := by
  have h := notified_monotone_at_most_once [(some (mkRat 1 2), 0)] cexStateClose Threshold.close
  exact ⟨h.1 (by decide), h.2.1, h.2.2⟩

theorem countP_appendTrip_showEffects (m : String) (ty : NType) (du : ℕ) (imp : Bool) :
    (showEffects m ty du imp).countP isAppendTrip = 0 := by
  cases imp <;> simp [showEffects, isAppendTrip]

theorem countP_appendTrip_stopTracking (s : AppState) :
    (stopTracking s).2.countP isAppendTrip = 0 := by
  obtain ⟨dla, dln, dn, nf, wid, tr, t0, wl, tps⟩ := s
  cases wid <;> cases wl <;> simp [stopTracking, releaseWakeLockOp, isAppendTrip]

theorem countP_appendTrip_save (dest : Option String) (dist : ℚ) (dur : ℤ) (s : AppState) :
    (saveTripHistoryOp dest dist dur s).2.countP isAppendTrip = 1 := by
  simp [saveTripHistoryOp, List.countP_cons, isAppendTrip, countP_appendTrip_showEffects]

theorem arrival_step (d : Option ℚ) (now : ℕ) (s : AppState)
    (hflag : s.notified .arrived = false) (hd : jsLt d (distances .arrived) = true) :
    (checkNotifications d now s).2.countP isAppendTrip = 1 ∧
    (checkNotifications d now s).1.isTracking = false ∧
    (checkNotifications d now s).1.watchId = none ∧
    (checkNotifications d now s).1.notified .arrived = true := by
  have hg : (jsLt d (distances .arrived) && !s.notified .arrived) = true := by
    rw [hd, hflag]
    rfl
  simp only [checkNotifications, hg, cond_true]
  obtain ⟨hn, hT, hW⟩ := handleArrival_post (d.getD 0) now s
  refine ⟨?_, hT, hW, by rw [hn]; simp⟩
  rw [handleArrival_trace]
  simp [List.countP_append, countP_appendTrip_showEffects, countP_appendTrip_stopTracking,
    countP_appendTrip_save, isAppendTrip]

theorem checkNotifications_inv_cases (d : Option ℚ) (now : ℕ) (s : AppState) :
    ((checkNotifications d now s).1.notified .arrived = s.notified .arrived ∧
      (checkNotifications d now s).1.isTracking = s.isTracking ∧
      (checkNotifications d now s).1.watchId = s.watchId) ∨
    ((checkNotifications d now s).1.isTracking = false ∧
      (checkNotifications d now s).1.watchId = none) := by
  simp only [checkNotifications]
  cases hb1 : jsLt d (distances .arrived) && !s.notified .arrived
  case true =>
    simp only [cond_true]
    exact Or.inr ⟨(handleArrival_post _ _ _).2.1, (handleArrival_post _ _ _).2.2⟩
  case false =>
  simp only [cond_false]
  cases hb2 : jsLt d (distances .close) && !s.notified .close
  case true =>
    simp only [cond_true]
    exact Or.inl (by simp [Function.update_apply])
  case false =>
  simp only [cond_false]
  cases hb3 : jsLt d (distances .near) && !s.notified .near
  case true =>
    simp only [cond_true]
    exact Or.inl (by simp [Function.update_apply])
  case false =>
  simp only [cond_false]
  cases hb4 : jsLt d (distances .approaching) && !s.notified .approaching
  case true =>
    simp only [cond_true]
    exact Or.inl (by simp [Function.update_apply])
  case false =>
    simp only [cond_false]
    exact Or.inl (by simp)

theorem step_preserves_inv (e : Ev) (s : AppState) (h : TrackingInv s) :
    TrackingInv (step e s).1 := by
  cases e with
  | sample d now =>
      simp only [step]
      rcases checkNotifications_inv_cases d now s with ⟨hn, hT, hW⟩ | ⟨hT, hW⟩
      · intro hpost
        rw [hn] at hpost
        obtain ⟨h1, h2⟩ := h hpost
        exact ⟨hT.trans h1, hW.trans h2⟩
      · exact fun _ => ⟨hT, hW⟩
  | stop =>
      intro _
      rw [step, stopTracking_state]
      exact ⟨rfl, rfl⟩
  | visibility hidden freshId =>
      cases hidden
      case true => simpa [step] using h
      case false =>
        simp only [step]
        cases hT : s.isTracking
        case false => simpa [hT] using h
        case true =>
          simp only [hT, if_true, if_false, Bool.false_eq_true, startPositionTracking]
          intro hpost
          have : s.notified .arrived = true := hpost
          obtain ⟨h1, _⟩ := h this
          rw [hT] at h1
          cases h1

theorem run_preserves_inv (evs : List Ev) (s : AppState) (h : TrackingInv s) :
    TrackingInv (run evs s).1 := by
  induction evs generalizing s with
  | nil => simpa [run] using h
  | cons e evs ih =>
      simp only [run]
      exact ih _ (step_preserves_inv e s h)

/-- C4: firing the `arrived` threshold appends exactly one trip record and
stops tracking in the same synchronous call (tracking flag cleared, watch
cancelled, `arrived` marked); and in every state reachable from a freshly
started tracking session, `arrived` being notified implies the session is
inactive. -/
theorem arrival_records_once_and_stops :
    (∀ (d : Option ℚ) (now : ℕ) (s : AppState),
      s.notified .arrived = false → jsLt d (distances .arrived) = true →
        (checkNotifications d now s).2.countP isAppendTrip = 1 ∧
        (checkNotifications d now s).1.isTracking = false ∧
        (checkNotifications d now s).1.watchId = none ∧
        (checkNotifications d now s).1.notified .arrived = true) ∧
    (∀ (evs : List Ev) (dn : Option String) (dla dlg : ℚ) (t0 w0 : ℕ) (wl : Bool)
      (tr0 : List TripRecord),
      (run evs (initTrackingState dn dla dlg t0 w0 wl tr0)).1.notified .arrived = true →
        (run evs (initTrackingState dn dla dlg t0 w0 wl tr0)).1.isTracking = false ∧
        (run evs (initTrackingState dn dla dlg t0 w0 wl tr0)).1.watchId = none) := by
  refine ⟨fun d now s hflag hd => arrival_step d now s hflag hd, ?_⟩
  intro evs dn dla dlg t0 w0 wl tr0
  exact run_preserves_inv evs _ (fun hpost => by cases hpost)

/-- Witness for C4's theorem: a first sample at 0.2 km on a fresh session. -/
theorem arrival_records_once_and_stops_witness :
    ((checkNotifications (some (mkRat 1 5)) 60000 cexState).2.countP isAppendTrip = 1 ∧
      (checkNotifications (some (mkRat 1 5)) 60000 cexState).1.isTracking = false ∧
      (checkNotifications (some (mkRat 1 5)) 60000 cexState).1.watchId = none ∧
      (checkNotifications (some (mkRat 1 5)) 60000 cexState).1.notified .arrived = true) ∧
    ((run [Ev.sample (some (mkRat 1 5)) 60000]
        (initTrackingState (some destX) (mkRat 1 1) (mkRat 1 1) 0 7 true [])).1.isTracking = false ∧
      (run [Ev.sample (some (mkRat 1 5)) 60000]
        (initTrackingState (some destX) (mkRat 1 1) (mkRat 1 1) 0 7 true [])).1.watchId = none) := by
  refine ⟨arrival_records_once_and_stops.1 (some (mkRat 1 5)) 60000 cexState
    (by decide) (by decide), ?_⟩
  exact arrival_records_once_and_stops.2 [Ev.sample (some (mkRat 1 5)) 60000]
    (some destX) (mkRat 1 1) (mkRat 1 1) 0 7 true [] (by decide)

theorem haversine_self (lat lon : ℝ) : haversine lat lon lat lon = 0 := by
  simp [haversine, deg2rad, atan2, Real.arctan_zero, zero_lt_one]

/-- C5 (amended): a NaN distance makes evaluate return none — every branch
guard is false — with no alert dispatched and the state unchanged.  (When
only the destination is unset the distance is NOT NaN: see the
counterexample.) -/
theorem evaluate_nan_none (now : ℕ) (s : AppState) :
    evaluateFired none s.notified = none ∧
    checkNotifications none now s = (s, []) := by
  constructor <;> rfl

/-- C5 counterexample: with the destination unset, `null` coerces to 0 inside
`haversine`, so at user position (0,0) the computed distance is the real
number 0 — not NaN — and evaluate fires `arrived` instead of returning none. -/
theorem dest_unset_fires_cex :
    haversineJS 0 0 none none = ((mkRat 0 1 : ℚ) : ℝ) ∧
    evaluateFired (some (mkRat 0 1)) emptyNotified = some Threshold.arrived := by
  constructor
  · show haversine 0 0 0 0 = _
    rw [haversine_self]
    norm_num
  · decide

theorem atan2_nonneg (y x : ℝ) (hy : 0 ≤ y) : 0 ≤ atan2 y x := by
  unfold atan2
  split_ifs with h1 h2 h3 h4 h5
  · have hq : 0 ≤ y / x := div_nonneg hy h1.le
    have := Real.arctan_strictMono.monotone hq
    simpa using this
  · have := Real.neg_pi_div_two_lt_arctan (y / x)
    have hp := Real.pi_pos
    linarith
  · exact absurd ⟨h3, hy⟩ h2
  · have := Real.pi_pos
    linarith
  · linarith
  · exact le_refl 0

theorem haversine_comm (lat1 lon1 lat2 lon2 : ℝ) :
    haversine lat1 lon1 lat2 lon2 = haversine lat2 lon2 lat1 lon1 := by
  have h1 : ∀ x y : ℝ, Real.sin (deg2rad (x - y) / 2) ^ 2 = Real.sin (deg2rad (y - x) / 2) ^ 2 := by
    intro x y
    have hx : deg2rad (x - y) = -deg2rad (y - x) := by
      simp only [deg2rad]
      ring
    rw [hx, neg_div, Real.sin_neg, neg_sq]
  simp only [haversine]
  rw [h1 lat2 lat1, h1 lon2 lon1,
    mul_comm (Real.cos (deg2rad lat1)) (Real.cos (deg2rad lat2))]

theorem haversine_nonneg (lat1 lon1 lat2 lon2 : ℝ) : 0 ≤ haversine lat1 lon1 lat2 lon2 := by
  simp only [haversine]
  refine mul_nonneg (by norm_num) (mul_nonneg (by norm_num) ?_)
  exact atan2_nonneg _ _ (Real.sqrt_nonneg _)

/-- C8: the haversine distance is symmetric in its two coordinate pairs,
zero on identical points, and never negative. -/
theorem haversine_symm_zero_nonneg :
    (∀ lat1 lon1 lat2 lon2 : ℝ,
      haversine lat1 lon1 lat2 lon2 = haversine lat2 lon2 lat1 lon1) ∧
    (∀ lat lon : ℝ, haversine lat lon lat lon = 0) ∧
    (∀ lat1 lon1 lat2 lon2 : ℝ, 0 ≤ haversine lat1 lon1 lat2 lon2) :=
  ⟨haversine_comm, haversine_self, haversine_nonneg⟩

/-- C10: `haversine` with a `null` destination never raises — JavaScript
coerces `null` to 0 in the arithmetic, so the call computes the ordinary
great-circle distance to coordinate (0,0); at a position away from (0,0),
e.g. the north pole, that distance is strictly positive (a real number, not
NaN), so threshold evaluation with an unset destination operates on a real
distance to (0,0). -/
theorem haversine_null_dest_is_distance_to_origin :
    (∀ lat lng : ℝ, haversineJS lat lng none none = haversine lat lng 0 0) ∧
    0 < haversineJS 90 0 none none := by
  refine ⟨fun lat lng => rfl, ?_⟩
  show (0:ℝ) < haversine 90 0 0 0
  have hs : Real.sin (deg2rad ((0:ℝ) - 90) / 2) ^ 2 = 1 / 2 := by
    have hdLat : deg2rad ((0:ℝ) - 90) / 2 = -(Real.pi / 4) := by
      simp only [deg2rad]
      ring
    rw [hdLat, Real.sin_neg, neg_sq, Real.sin_pi_div_four, div_pow,
      Real.sq_sqrt (by norm_num : (0:ℝ) ≤ 2)]
    norm_num
  have hlon : Real.sin (deg2rad ((0:ℝ) - 0) / 2) ^ 2 = 0 := by
    simp [deg2rad]
  simp only [haversine, hs, hlon, mul_zero, add_zero]
  have hx : (0:ℝ) < Real.sqrt (1 - 1 / 2) := by
    rw [show (1:ℝ) - 1 / 2 = 1 / 2 by norm_num]
    exact Real.sqrt_pos.mpr (by norm_num)
  have harg : Real.sqrt (1 / 2) / Real.sqrt (1 - 1 / 2) = 1 := by
    rw [show (1:ℝ) - 1 / 2 = 1 / 2 by norm_num]
    exact div_self (Real.sqrt_pos.mpr (by norm_num)).ne'
  have hat : atan2 (Real.sqrt (1 / 2)) (Real.sqrt (1 - 1 / 2)) = Real.pi / 4 := by
    unfold atan2
    rw [if_pos hx, harg, Real.arctan_one]
  rw [hat]
  have := Real.pi_pos
  linarith
